import Mathlib

/-!
Shallow embedding of `src/smb_mission_planner/mission_planner.py` (the
`Mission` smach state: the per-mission goal-sequencing controller).

Modelling decisions:
* Real-number quantities (coordinates, tolerances) are modelled as `ℚ` so
  every predicate is decidable and executable.
* The source compares `math.sqrt(dx^2 + dy^2) <= tol`; over nonnegative
  tolerances this is equivalent to the squared comparison
  `dx^2 + dy^2 <= tol^2`, which is what the executable embedding uses.
  The equivalence with the source formula (with a genuine `Real.sqrt`) is
  proved in `poseWithinTolerance_iff_sqrt` below.
* The orientation quaternion of a `PoseStamped` message is abstracted to
  the yaw angle it encodes: the source converts yaw → quaternion through
  `tf.transformations.quaternion_from_euler` when publishing and converts
  back through `euler_from_quaternion` in the pose callback; the spec
  declares this library round-trip out of scope, so messages carry the yaw
  directly.
* The asynchronous pose feedback (`poseCallback` firing from a ROS
  subscriber thread) is modelled by a schedule `feedback : ℕ → Option
  PoseStampedMsg`: `feedback k` is the last message delivered during the
  k-th one-second sleep of the wait loop (`none` = no message arrived, the
  stored estimate is unchanged). Messages received before the activation
  are captured by the initial `estimated` field.
* The Python attributes `estimated_x_m`/`estimated_y_m`/`estimated_yaw_rad`
  do not exist until the first callback runs; `reachedGoalWithTolerance`
  detects this with a `try`/`except` and returns `False`. This is modelled
  by `estimated : Option Pose` (`none` = never received), and likewise the
  goal snapshot attributes by `activeGoal : Option Pose`.
-/

/-- One entry of the ordered mission dictionary: a named goal
`name → {x_m, y_m, yaw_rad}` (see `readMissionsData` / the yaml layout). -/
structure Goal where
  name : String
  x_m : ℚ
  y_m : ℚ
  yaw_rad : ℚ
deriving DecidableEq, Repr

/-- A pose: planar position plus heading.  Used both for the active-goal
snapshot of the sequencer (`goal_x_m`, `goal_y_m`, `goal_yaw_rad`) and for the
stored estimate (`estimated_x_m`, `estimated_y_m`, `estimated_yaw_rad`). -/
structure Pose where
  x_m : ℚ
  y_m : ℚ
  yaw_rad : ℚ
deriving DecidableEq, Repr

/-- The goal pose carried by a `Goal` record. -/
def Goal.pose (g : Goal) : Pose :=
  ⟨g.x_m, g.y_m, g.yaw_rad⟩

/-- A `PoseStamped` message as far as the controller reads or writes it:
frame id, planar position, z, and the heading encoded in the orientation
quaternion (quaternion abstracted to its yaw, see the file header). -/
structure PoseStampedMsg where
  frame_id : String
  x : ℚ
  y : ℚ
  z : ℚ
  yaw_rad : ℚ
deriving DecidableEq, Repr

/-- The three outcomes of `Mission.execute`
(the outcome strings Completed, Aborted and Next Goal declared in
`smach.State.__init__`). -/
inductive Outcome where
  | Completed
  | Aborted
  | NextGoal
deriving DecidableEq, Repr

/-- The string returned by the Python method for each outcome. -/
def Outcome.label : Outcome → String
  | .Completed => "Completed"
  | .Aborted => "Aborted"
  | .NextGoal => "Next Goal"

/-- The mutable state of one `Mission` instance. `mission_data` models the
ordered goal dictionary (order = `keys()` order). `goal_idx` is the current
goal index. The two tolerance fields are set in `__init__` and never
written afterwards. `activeGoal` holds the `goal_x_m`/`goal_y_m`/
`goal_yaw_rad` snapshot written by `setGoal` (`none` before the first
call); `estimated` holds the latest pose from `poseCallback` (`none` if no
pose was ever received). -/
structure MissionState where
  mission_data : List Goal
  goal_idx : ℕ
  distance_to_goal_tolerance_m : ℚ
  angle_to_goal_tolerance_rad : ℚ
  activeGoal : Option Pose
  estimated : Option Pose
deriving DecidableEq, Repr

/-- Embedding of `Mission.__init__(mission_data)`: index 0, tolerances 0.3 m and
0.7 rad, no goal snapshot and no estimate yet. -/
def mkMission (mission_data : List Goal) : MissionState :=
  { mission_data := mission_data
    goal_idx := 0
    distance_to_goal_tolerance_m := 3/10
    angle_to_goal_tolerance_rad := 7/10
    activeGoal := none
    estimated := none }

/-- Embedding of `Mission.setGoal(x_m, y_m, yaw_rad)`: build the outbound
`PoseStamped` (frame "world", z = 0, orientation from yaw), publish it,
and record the active-goal snapshot.  Returns (published message, new
state). -/
def setGoal (s : MissionState) (x_m y_m yaw_rad : ℚ) :
    PoseStampedMsg × MissionState :=
  ({ frame_id := "world", x := x_m, y := y_m, z := 0, yaw_rad := yaw_rad },
   { s with activeGoal := some ⟨x_m, y_m, yaw_rad⟩ })

/-- Embedding of `Mission.poseCallback(pose_stamped_msg)`: store position and the yaw
decomposed from the orientation as the current estimate. -/
def poseCallback (s : MissionState) (msg : PoseStampedMsg) : MissionState :=
  { s with estimated := some ⟨msg.x, msg.y, msg.yaw_rad⟩ }

/-- The body of `Mission.reachedGoalWithTolerance` once both the goal
snapshot and an estimate exist: the source tests
`sqrt((gx-ex)^2 + (gy-ey)^2) <= distance_tol` and
`abs(gyaw - eyaw) <= angle_tol`; the first test is embedded as the
equivalent squared comparison (see `poseWithinTolerance_iff_sqrt`). -/
def poseWithinTolerance (g e : Pose) (dist_tol angle_tol : ℚ) : Bool :=
  decide ((g.x_m - e.x_m) ^ 2 + (g.y_m - e.y_m) ^ 2 ≤ dist_tol ^ 2) &&
  decide (|g.yaw_rad - e.yaw_rad| ≤ angle_tol)

/-- Embedding of `Mission.reachedGoalWithTolerance()`: if either the goal snapshot
or the estimate attributes are missing, the `except` branch of the source logs a
warning and returns `False`; otherwise compare against both tolerances. -/
def reachedGoalWithTolerance (s : MissionState) : Bool :=
  match s.activeGoal, s.estimated with
  | some g, some e =>
      poseWithinTolerance g e s.distance_to_goal_tolerance_m
        s.angle_to_goal_tolerance_rad
  | _, _ => false

/-- Effect of the feedback delivered during one sleep: `none` leaves the
state unchanged, `some msg` runs `poseCallback`. -/
def applyFeedback (s : MissionState) : Option PoseStampedMsg → MissionState
  | none => s
  | some msg => poseCallback s msg

/-- The stored estimate as the wait loop sees it at its k-th arrival
check, starting from estimate `e` and applying the feedback schedule. -/
def estimateAtTick (e : Option Pose) (feedback : ℕ → Option PoseStampedMsg) :
    ℕ → Option Pose
  | 0 => e
  | k + 1 =>
      estimateAtTick
        (match feedback 0 with
         | none => e
         | some msg => some ⟨msg.x, msg.y, msg.yaw_rad⟩)
        (fun j => feedback (j + 1)) k

/-- Result of the countdown loop: whether the arrival check fired, the
state afterwards, how many `rospy.sleep(1)` calls ran, and how many
arrival checks ran. -/
structure LoopResult where
  arrived : Bool
  state : MissionState
  sleeps : ℕ
  checks : ℕ
deriving Repr

/-- The `while countdown_s:` loop of `Mission.execute`: each iteration
checks `reachedGoalWithTolerance()` and exits immediately on success, else
sleeps one second (during which feedback may update the estimate) and
decrements the countdown. -/
def waitLoop (feedback : ℕ → Option PoseStampedMsg) :
    ℕ → MissionState → LoopResult
  | 0, s => ⟨false, s, 0, 0⟩
  | countdown + 1, s =>
      if reachedGoalWithTolerance s then
        ⟨true, s, 0, 1⟩
      else
        let r := waitLoop (fun j => feedback (j + 1)) countdown
          (applyFeedback s (feedback 0))
        ⟨r.arrived, r.state, r.sleeps + 1, r.checks + 1⟩

/-- Result of one activation of `Mission.execute`: the returned outcome
string, the state afterwards, every message published during the
activation, and the sleep/check counts of the wait loop. -/
structure ExecResult where
  outcome : Outcome
  state : MissionState
  published : List PoseStampedMsg
  sleeps : ℕ
  checks : ℕ
deriving Repr

/-- Embedding of `Mission.execute(userdata)`.  If `goal_idx >= len(mission_data)`,
reset the index and return Completed without publishing.  Otherwise look
up the goal at the current index, publish it via `setGoal`, run the
4-tick countdown loop; on arrival increment the index and return
Next Goal, on exhaustion return Aborted (index stays 0) when the index
was 0, else increment and return Next Goal. -/
def execute (s : MissionState) (feedback : ℕ → Option PoseStampedMsg) :
    ExecResult :=
  if h : s.mission_data.length ≤ s.goal_idx then
    ⟨.Completed, { s with goal_idx := 0 }, [], 0, 0⟩
  else
    let current_goal := s.mission_data.get ⟨s.goal_idx, by omega⟩
    let p := setGoal s current_goal.x_m current_goal.y_m current_goal.yaw_rad
    let r := waitLoop feedback 4 p.2
    if r.arrived then
      ⟨.NextGoal, { r.state with goal_idx := r.state.goal_idx + 1 },
        [p.1], r.sleeps, r.checks⟩
    else if r.state.goal_idx = 0 then
      ⟨.Aborted, { r.state with goal_idx := 0 }, [p.1], r.sleeps, r.checks⟩
    else
      ⟨.NextGoal, { r.state with goal_idx := r.state.goal_idx + 1 },
        [p.1], r.sleeps, r.checks⟩

/-- The arrival check `execute` performs at tick `k` of the wait loop,
phrased against the initial state: the goal looked up at the current
index versus the estimate the tracker holds at that tick. -/
def checkAt (s : MissionState) (feedback : ℕ → Option PoseStampedMsg)
    (k : ℕ) : Bool :=
  match s.mission_data[s.goal_idx]?, estimateAtTick s.estimated feedback k with
  | some g, some e =>
      poseWithinTolerance g.pose e s.distance_to_goal_tolerance_m
        s.angle_to_goal_tolerance_rad
  | _, _ => false

/-- First goal of the concrete two-goal mission used by the witnesses
(the concrete scenario of the spec: G0 at (0, 0) heading 0). -/
def demoGoalA : Goal :=
  { name := "goal_1", x_m := 0, y_m := 0, yaw_rad := 0 }

/-- Second goal of the concrete mission (G1 at (5, 0) heading 0). -/
def demoGoalB : Goal :=
  { name := "goal_2", x_m := 5, y_m := 0, yaw_rad := 0 }

/-- A freshly constructed two-goal mission. -/
def demoMission : MissionState :=
  mkMission [demoGoalA, demoGoalB]

/-- Feedback schedule that never delivers a pose message. -/
def noFeedback : ℕ → Option PoseStampedMsg :=
  fun _ => none

/-- Feedback schedule that delivers the pose (0, 0, heading 0) during
every sleep. -/
def originFeedback : ℕ → Option PoseStampedMsg :=
  fun _ => some { frame_id := "world", x := 0, y := 0, z := 0, yaw_rad := 0 }

/-- A sequencer state with a different goal list and index but the same
snapshot, estimate and tolerances as `demoMission` after
`setGoal demoMission 1 2 3` (used to witness that the arrival check
ignores the goal list and index). -/
def demoOther : MissionState :=
  { mission_data := [demoGoalB]
    goal_idx := 7
    distance_to_goal_tolerance_m := 3/10
    angle_to_goal_tolerance_rad := 7/10
    activeGoal := some ⟨1, 2, 3⟩
    estimated := none }

/-! ### Helper lemmas -/

/-- Justification of the squared-distance embedding: for a nonnegative
distance tolerance, the executable check `poseWithinTolerance` holds
exactly when the formula of the source over the reals holds, i.e.
`math.sqrt((gx-ex)^2 + (gy-ey)^2) <= dist_tol` and
`abs(gyaw - eyaw) <= angle_tol`. -/
theorem poseWithinTolerance_iff_sqrt (g e : Pose) (dist_tol angle_tol : ℚ)
    (hd : 0 ≤ dist_tol) :
    poseWithinTolerance g e dist_tol angle_tol = true ↔
      (Real.sqrt (((g.x_m : ℝ) - e.x_m) ^ 2 + ((g.y_m : ℝ) - e.y_m) ^ 2)
          ≤ (dist_tol : ℝ) ∧
        |(g.yaw_rad : ℝ) - e.yaw_rad| ≤ (angle_tol : ℝ)) := by
  have hd' : (0 : ℝ) ≤ (dist_tol : ℝ) := by exact_mod_cast hd
  rw [poseWithinTolerance, Bool.and_eq_true, decide_eq_true_eq,
    decide_eq_true_eq, Real.sqrt_le_left hd']
  constructor
  · rintro ⟨h1, h2⟩
    exact ⟨by exact_mod_cast h1, by exact_mod_cast h2⟩
  · rintro ⟨h1, h2⟩
    refine ⟨?_, ?_⟩
    · have : (((g.x_m - e.x_m) ^ 2 + (g.y_m - e.y_m) ^ 2 : ℚ) : ℝ)
          ≤ ((dist_tol ^ 2 : ℚ) : ℝ) := by
        push_cast
        exact h1
      exact_mod_cast this
    · have : ((|g.yaw_rad - e.yaw_rad| : ℚ) : ℝ) ≤ ((angle_tol : ℚ) : ℝ) := by
        push_cast
        exact h2
      exact_mod_cast this

/-- An estimate exactly at the goal pose passes the check whenever the
angle tolerance is nonnegative. -/
theorem poseWithinTolerance_self (p : Pose) (d a : ℚ)
    (ha : 0 ≤ a) : poseWithinTolerance p p d a = true := by
  unfold poseWithinTolerance
  rw [Bool.and_eq_true, decide_eq_true_eq, decide_eq_true_eq]
  constructor
  · simpa [sub_self] using sq_nonneg d
  · simpa [sub_self] using ha

/-- An estimate violating the distance condition fails the check. -/
theorem poseWithinTolerance_far (g e : Pose) (d a : ℚ)
    (h : ¬((g.x_m - e.x_m) ^ 2 + (g.y_m - e.y_m) ^ 2 ≤ d ^ 2)) :
    poseWithinTolerance g e d a = false := by
  unfold poseWithinTolerance
  rw [decide_eq_false h, Bool.false_and]

/-- The map `applyFeedback` only ever changes the `estimated` field. -/
theorem applyFeedback_with_estimated (u : MissionState)
    (d : Option PoseStampedMsg) (x : Option Pose) :
    ({ applyFeedback u d with estimated := x } : MissionState) =
      { u with estimated := x } := by
  cases d <;> rfl

/-- One step of the loop, seen through `estimateAtTick`: checking at tick
`k + 1` from `u` is checking at tick `k` from the post-sleep state. -/
theorem chkState_succ (u : MissionState) (f : ℕ → Option PoseStampedMsg)
    (k : ℕ) :
    ({ u with estimated := estimateAtTick u.estimated f (k + 1) } :
        MissionState) =
      { applyFeedback u (f 0) with
          estimated := estimateAtTick (applyFeedback u (f 0)).estimated
            (fun j => f (j + 1)) k } := by
  cases h : f 0 <;>
    simp [estimateAtTick, applyFeedback, poseCallback, h]

/-- The wait loop can only change the `estimated` field of the state. -/
theorem waitLoop_state_frame (f : ℕ → Option PoseStampedMsg) (n : ℕ)
    (u : MissionState) :
    (waitLoop f n u).state =
      { u with estimated := (waitLoop f n u).state.estimated } := by
  induction n generalizing f u with
  | zero => rfl
  | succ n ih =>
    by_cases h : reachedGoalWithTolerance u
    · simp [waitLoop, h]
    · simp only [waitLoop, h, Bool.false_eq_true, if_false]
      exact (ih _ _).trans (applyFeedback_with_estimated u (f 0) _)

/-- The loop runs at most `n` checks and at most `n` sleeps. -/
theorem waitLoop_counts_le (f : ℕ → Option PoseStampedMsg) (n : ℕ)
    (u : MissionState) :
    (waitLoop f n u).checks ≤ n ∧ (waitLoop f n u).sleeps ≤ n := by
  induction n generalizing f u with
  | zero => simp [waitLoop]
  | succ n ih =>
    by_cases h : reachedGoalWithTolerance u
    · simp [waitLoop, h]
    · have hr := ih (fun j => f (j + 1)) (applyFeedback u (f 0))
      simp only [waitLoop, h, Bool.false_eq_true, if_false]
      omega

/-- If no tick of the countdown satisfies the arrival check, the loop
exhausts all `n` sleeps and `n` checks and reports no arrival. -/
theorem waitLoop_no_arrival (f : ℕ → Option PoseStampedMsg) (n : ℕ)
    (u : MissionState)
    (h : ∀ k < n,
      reachedGoalWithTolerance
        { u with estimated := estimateAtTick u.estimated f k } = false) :
    waitLoop f n u =
      ⟨false, { u with estimated := estimateAtTick u.estimated f n }, n, n⟩ := by
  induction n generalizing f u with
  | zero => rfl
  | succ n ih =>
    have h0 : reachedGoalWithTolerance u = false := h 0 (Nat.succ_pos n)
    have hrest : ∀ k < n,
        reachedGoalWithTolerance
          { applyFeedback u (f 0) with
              estimated := estimateAtTick (applyFeedback u (f 0)).estimated
                (fun j => f (j + 1)) k } = false := by
      intro k hk
      rw [← chkState_succ]
      exact h (k + 1) (by omega)
    have hr := ih (fun j => f (j + 1)) (applyFeedback u (f 0)) hrest
    simp only [waitLoop, h0, Bool.false_eq_true, if_false, hr]
    rw [chkState_succ]

/-- If some tick of the countdown satisfies the arrival check, the loop
reports arrival without consuming all `n` sleeps. -/
theorem waitLoop_arrival (f : ℕ → Option PoseStampedMsg) (n : ℕ)
    (u : MissionState)
    (h : ∃ k < n,
      reachedGoalWithTolerance
        { u with estimated := estimateAtTick u.estimated f k } = true) :
    (waitLoop f n u).arrived = true ∧ (waitLoop f n u).sleeps < n := by
  induction n generalizing f u with
  | zero =>
    obtain ⟨k, hk, _⟩ := h
    omega
  | succ n ih =>
    by_cases h0 : reachedGoalWithTolerance u
    · simp [waitLoop, h0]
    · obtain ⟨k, hk, hkc⟩ := h
      match k with
      | 0 => exact absurd hkc (by simpa [estimateAtTick] using h0)
      | k + 1 =>
        have hr := ih (fun j => f (j + 1)) (applyFeedback u (f 0))
          ⟨k, by omega, by rw [← chkState_succ]; exact hkc⟩
        simp only [waitLoop, h0, Bool.false_eq_true, if_false]
        exact ⟨hr.1, by omega⟩

/-- Unfolding of `execute` when the current index is in range: publish
the goal at the index, run the 4-tick loop, then branch on arrival and on
whether the index is 0. -/
theorem execute_of_lt (s : MissionState) (f : ℕ → Option PoseStampedMsg)
    (h : s.goal_idx < s.mission_data.length) (g : Goal)
    (hg : s.mission_data.get ⟨s.goal_idx, h⟩ = g) (r : LoopResult)
    (hr : waitLoop f 4 { s with activeGoal := some g.pose } = r) :
    execute s f =
      if r.arrived then
        (⟨.NextGoal, { r.state with goal_idx := r.state.goal_idx + 1 },
          [⟨"world", g.x_m, g.y_m, 0, g.yaw_rad⟩], r.sleeps, r.checks⟩ :
          ExecResult)
      else if r.state.goal_idx = 0 then
        ⟨.Aborted, { r.state with goal_idx := 0 },
          [⟨"world", g.x_m, g.y_m, 0, g.yaw_rad⟩], r.sleeps, r.checks⟩
      else
        ⟨.NextGoal, { r.state with goal_idx := r.state.goal_idx + 1 },
          [⟨"world", g.x_m, g.y_m, 0, g.yaw_rad⟩], r.sleeps, r.checks⟩ := by
  subst hg
  subst hr
  unfold execute
  rw [dif_neg (Nat.not_le.mpr h)]
  rfl

/-- The check the loop performs at tick `k` (started from the
post-`setGoal` state) is `checkAt s f k`. -/
theorem reached_loopState_eq_checkAt (s : MissionState)
    (f : ℕ → Option PoseStampedMsg) (h : s.goal_idx < s.mission_data.length)
    (k : ℕ) :
    reachedGoalWithTolerance
      { ({ s with
            activeGoal := some (s.mission_data.get ⟨s.goal_idx, h⟩).pose } :
          MissionState) with
        estimated := estimateAtTick s.estimated f k } =
      checkAt s f k := by
  have hget : s.mission_data[s.goal_idx]? =
      some (s.mission_data.get ⟨s.goal_idx, h⟩) := by
    rw [List.getElem?_eq_getElem h]
    simp [List.get_eq_getElem]
  cases hE : estimateAtTick s.estimated f k with
  | none => simp [reachedGoalWithTolerance, checkAt, hget, hE]
  | some e => simp [reachedGoalWithTolerance, checkAt, hget, hE]

/-- The wait loop does not touch the goal index. -/
theorem waitLoop_goal_idx (f : ℕ → Option PoseStampedMsg) (n : ℕ)
    (u : MissionState) : (waitLoop f n u).state.goal_idx = u.goal_idx := by
  rw [waitLoop_state_frame]

/-- The wait loop does not touch the goal list. -/
theorem waitLoop_mission_data (f : ℕ → Option PoseStampedMsg) (n : ℕ)
    (u : MissionState) :
    (waitLoop f n u).state.mission_data = u.mission_data := by
  rw [waitLoop_state_frame]

/-- If the arrival check already holds on entry, the loop returns after
one check and zero sleeps, leaving the state untouched. -/
theorem waitLoop_immediate (f : ℕ → Option PoseStampedMsg) (n : ℕ)
    (u : MissionState) (h : reachedGoalWithTolerance u = true) :
    waitLoop f (n + 1) u = ⟨true, u, 0, 1⟩ := by
  simp [waitLoop, h]

/-- With a feedback schedule that never delivers a message, the stored
estimate never changes. -/
theorem estimateAtTick_of_no_feedback (e : Option Pose)
    (f : ℕ → Option PoseStampedMsg) (hf : ∀ k, f k = none) (k : ℕ) :
    estimateAtTick e f k = e := by
  induction k generalizing e f with
  | zero => rfl
  | succ k ih =>
    rw [estimateAtTick, hf 0]
    exact ih e (fun j => f (j + 1)) (fun j => hf (j + 1))

/-- A tick whose estimate is still missing never passes the check. -/
theorem checkAt_of_estimate_none (s : MissionState)
    (f : ℕ → Option PoseStampedMsg) (k : ℕ)
    (h : estimateAtTick s.estimated f k = none) : checkAt s f k = false := by
  unfold checkAt
  rw [h]
  cases s.mission_data[s.goal_idx]? <;> rfl

/-! ### Claim theorems -/

/-- C1: for an activation with `goal_idx < goalCount`, if at some tick of
the 4-tick wait loop the stored estimate is within both tolerances of the
goal published for the current index, then `execute` returns Next Goal,
increments the goal index by exactly 1, and returns without consuming the
remaining countdown (strictly fewer than 4 sleeps). -/
theorem claim_C1_arrival_advances (s : MissionState)
    (f : ℕ → Option PoseStampedMsg)
    (h : s.goal_idx < s.mission_data.length)
    (hex : ∃ k < 4, checkAt s f k = true) :
    (execute s f).outcome = Outcome.NextGoal ∧
      (execute s f).state.goal_idx = s.goal_idx + 1 ∧
      (execute s f).sleeps < 4 := by
  obtain ⟨g, hg⟩ : ∃ g, s.mission_data.get ⟨s.goal_idx, h⟩ = g := ⟨_, rfl⟩
  obtain ⟨r, hr⟩ :
      ∃ r, waitLoop f 4 { s with activeGoal := some g.pose } = r := ⟨_, rfl⟩
  have har := waitLoop_arrival f 4 { s with activeGoal := some g.pose }
    (by
      obtain ⟨k, hk, hc⟩ := hex
      have hrc := (reached_loopState_eq_checkAt s f h k).trans hc
      rw [hg] at hrc
      exact ⟨k, hk, hrc⟩)
  have hgi := waitLoop_goal_idx f 4 { s with activeGoal := some g.pose }
  rw [hr] at har hgi
  rw [execute_of_lt s f h g hg r hr, har.1]
  refine ⟨rfl, ?_, har.2⟩
  show r.state.goal_idx + 1 = s.goal_idx + 1
  rw [hgi]

/-- C2: for an activation starting at index 0 on a nonempty mission in
which no tick of the wait loop satisfies the arrival condition, `execute`
exhausts the full 4-tick countdown and returns Aborted with the goal
index still 0. -/
theorem claim_C2_first_goal_abort (s : MissionState)
    (f : ℕ → Option PoseStampedMsg)
    (h0 : s.goal_idx = 0) (hne : 0 < s.mission_data.length)
    (hno : ∀ k < 4, checkAt s f k = false) :
    (execute s f).outcome = Outcome.Aborted ∧
      (execute s f).state.goal_idx = 0 ∧
      (execute s f).sleeps = 4 := by
  have h : s.goal_idx < s.mission_data.length := by omega
  obtain ⟨g, hg⟩ : ∃ g, s.mission_data.get ⟨s.goal_idx, h⟩ = g := ⟨_, rfl⟩
  have hwl := waitLoop_no_arrival f 4 { s with activeGoal := some g.pose }
    (by
      intro k hk
      have hrc := (reached_loopState_eq_checkAt s f h k).trans (hno k hk)
      rw [hg] at hrc
      exact hrc)
  rw [execute_of_lt s f h g hg _ hwl]
  simp [h0]

/-- C3: for an activation starting at index > 0 whose countdown is
exhausted without the arrival condition ever holding, `execute` returns
Next Goal and increments the index by exactly 1; moreover Aborted is only
ever returned by an activation that started at index 0. -/
theorem claim_C3_mid_mission_skip (s : MissionState)
    (f : ℕ → Option PoseStampedMsg)
    (hpos : 0 < s.goal_idx) (h : s.goal_idx < s.mission_data.length)
    (hno : ∀ k < 4, checkAt s f k = false) :
    ((execute s f).outcome = Outcome.NextGoal ∧
      (execute s f).state.goal_idx = s.goal_idx + 1) ∧
      ∀ (t : MissionState) (g : ℕ → Option PoseStampedMsg),
        (execute t g).outcome = Outcome.Aborted → t.goal_idx = 0 := by
  constructor
  · obtain ⟨g, hg⟩ : ∃ g, s.mission_data.get ⟨s.goal_idx, h⟩ = g := ⟨_, rfl⟩
    have hwl := waitLoop_no_arrival f 4 { s with activeGoal := some g.pose }
      (by
        intro k hk
        have hrc := (reached_loopState_eq_checkAt s f h k).trans (hno k hk)
        rw [hg] at hrc
        exact hrc)
    rw [execute_of_lt s f h g hg _ hwl]
    have hnz : s.goal_idx ≠ 0 := by omega
    simp [hnz]
  · intro t q habort
    by_cases ht : t.mission_data.length ≤ t.goal_idx
    · unfold execute at habort
      rw [dif_pos ht] at habort
      simp at habort
    · have ht' : t.goal_idx < t.mission_data.length := by omega
      obtain ⟨g, hg⟩ : ∃ g, t.mission_data.get ⟨t.goal_idx, ht'⟩ = g :=
        ⟨_, rfl⟩
      obtain ⟨r, hr⟩ :
          ∃ r, waitLoop q 4 { t with activeGoal := some g.pose } = r :=
        ⟨_, rfl⟩
      have hgi := waitLoop_goal_idx q 4 { t with activeGoal := some g.pose }
      rw [hr] at hgi
      rw [execute_of_lt t q ht' g hg r hr] at habort
      by_cases ha : r.arrived = true
      · rw [if_pos ha] at habort
        simp at habort
      · rw [if_neg ha] at habort
        by_cases hz : r.state.goal_idx = 0
        · rw [hgi] at hz
          exact hz
        · rw [if_neg hz] at habort
          simp at habort

/-- C4: an activation whose index is at or past the goal count resets the
index to 0 and returns Completed, publishing nothing and performing no
checks or sleeps; in particular a mission with an empty goal list always
returns Completed at once. -/
theorem claim_C4_completion (s : MissionState)
    (f : ℕ → Option PoseStampedMsg)
    (h : s.mission_data.length ≤ s.goal_idx) :
    ((execute s f).outcome = Outcome.Completed ∧
      (execute s f).state.goal_idx = 0 ∧
      (execute s f).published = [] ∧
      (execute s f).sleeps = 0 ∧
      (execute s f).checks = 0) ∧
      ∀ (t : MissionState) (g : ℕ → Option PoseStampedMsg),
        t.mission_data = [] → (execute t g).outcome = Outcome.Completed := by
  constructor
  · unfold execute
    rw [dif_pos h]
    exact ⟨rfl, rfl, rfl, rfl, rfl⟩
  · intro t q hemp
    have hle : t.mission_data.length ≤ t.goal_idx := by
      rw [hemp]
      simp
    unfold execute
    rw [dif_pos hle]

/-- C5: if the goal index is in `[0, goalCount]` before an activation it
is in `[0, goalCount]` afterwards; the index grows by at most 1, the goal
count is unchanged, and index = goalCount holds exactly when the
activation returns Completed. -/
theorem claim_C5_index_invariant (s : MissionState)
    (f : ℕ → Option PoseStampedMsg)
    (h : s.goal_idx ≤ s.mission_data.length) :
    ((execute s f).state.goal_idx ≤ (execute s f).state.mission_data.length ∧
      (execute s f).state.mission_data.length = s.mission_data.length ∧
      (execute s f).state.goal_idx ≤ s.goal_idx + 1) ∧
      (s.goal_idx = s.mission_data.length ↔
        (execute s f).outcome = Outcome.Completed) := by
  by_cases hc : s.mission_data.length ≤ s.goal_idx
  · unfold execute
    rw [dif_pos hc]
    exact ⟨⟨Nat.zero_le _, rfl, Nat.zero_le _⟩,
      ⟨fun _ => rfl, fun _ => by omega⟩⟩
  · have hlt : s.goal_idx < s.mission_data.length := by omega
    obtain ⟨g, hg⟩ : ∃ g, s.mission_data.get ⟨s.goal_idx, hlt⟩ = g := ⟨_, rfl⟩
    obtain ⟨r, hr⟩ :
        ∃ r, waitLoop f 4 { s with activeGoal := some g.pose } = r := ⟨_, rfl⟩
    have hgi : r.state.goal_idx = s.goal_idx := by
      have := waitLoop_goal_idx f 4 { s with activeGoal := some g.pose }
      rw [hr] at this
      exact this
    have hmd : r.state.mission_data = s.mission_data := by
      have := waitLoop_mission_data f 4 { s with activeGoal := some g.pose }
      rw [hr] at this
      exact this
    rw [execute_of_lt s f hlt g hg r hr]
    by_cases ha : r.arrived = true
    · rw [if_pos ha]
      refine ⟨⟨?_, ?_, ?_⟩, ?_⟩
      · show r.state.goal_idx + 1 ≤ r.state.mission_data.length
        rw [hgi, hmd]
        omega
      · show r.state.mission_data.length = s.mission_data.length
        rw [hmd]
      · show r.state.goal_idx + 1 ≤ s.goal_idx + 1
        rw [hgi]
      · exact ⟨fun hh => absurd hh (by omega), fun hh => absurd hh (by simp)⟩
    · rw [if_neg ha]
      by_cases hz : r.state.goal_idx = 0
      · rw [if_pos hz]
        refine ⟨⟨Nat.zero_le _, ?_, Nat.zero_le _⟩, ?_⟩
        · show r.state.mission_data.length = s.mission_data.length
          rw [hmd]
        · exact ⟨fun hh => absurd hh (by omega), fun hh => absurd hh (by simp)⟩
      · rw [if_neg hz]
        refine ⟨⟨?_, ?_, ?_⟩, ?_⟩
        · show r.state.goal_idx + 1 ≤ r.state.mission_data.length
          rw [hgi, hmd]
          omega
        · show r.state.mission_data.length = s.mission_data.length
          rw [hmd]
        · show r.state.goal_idx + 1 ≤ s.goal_idx + 1
          rw [hgi]
        · exact ⟨fun hh => absurd hh (by omega), fun hh => absurd hh (by simp)⟩

/-- C6: a tick with no estimate ever received makes the arrival check
return false rather than failing, and an activation that never receives
feedback is indistinguishable (same outcome, same resulting goal index,
full countdown of 4 sleeps) from one whose feedback never satisfies the
tolerances. -/
theorem claim_C6_missing_feedback (s : MissionState) (e2 : Option Pose)
    (f q : ℕ → Option PoseStampedMsg)
    (hs : s.estimated = none) (hf : ∀ k, f k = none)
    (hlt : s.goal_idx < s.mission_data.length)
    (hno : ∀ k < 4, checkAt { s with estimated := e2 } q k = false) :
    (∀ u : MissionState, u.estimated = none →
        reachedGoalWithTolerance u = false) ∧
      (execute s f).outcome = (execute { s with estimated := e2 } q).outcome ∧
      (execute s f).state.goal_idx =
        (execute { s with estimated := e2 } q).state.goal_idx ∧
      (execute s f).sleeps = 4 ∧
      (execute { s with estimated := e2 } q).sleeps = 4 := by
  have hcheck : ∀ u : MissionState, u.estimated = none →
      reachedGoalWithTolerance u = false := by
    intro u hu
    unfold reachedGoalWithTolerance
    rw [hu]
    cases u.activeGoal <;> rfl
  have hnoA : ∀ k < 4, checkAt s f k = false := by
    intro k _
    refine checkAt_of_estimate_none s f k ?_
    rw [estimateAtTick_of_no_feedback s.estimated f hf k]
    exact hs
  obtain ⟨g, hg⟩ : ∃ g, s.mission_data.get ⟨s.goal_idx, hlt⟩ = g := ⟨_, rfl⟩
  have hwlA := waitLoop_no_arrival f 4 { s with activeGoal := some g.pose }
    (by
      intro k hk
      have hrc := (reached_loopState_eq_checkAt s f hlt k).trans (hnoA k hk)
      rw [hg] at hrc
      exact hrc)
  have hltB : ({ s with estimated := e2 } : MissionState).goal_idx <
      ({ s with estimated := e2 } : MissionState).mission_data.length := hlt
  have hgB : ({ s with estimated := e2 } : MissionState).mission_data.get
      ⟨({ s with estimated := e2 } : MissionState).goal_idx, hltB⟩ = g := hg
  have hwlB := waitLoop_no_arrival q 4
    { ({ s with estimated := e2 } : MissionState) with
      activeGoal := some g.pose }
    (by
      intro k hk
      have hrc := (reached_loopState_eq_checkAt { s with estimated := e2 } q
        hltB k).trans (hno k hk)
      rw [hgB] at hrc
      exact hrc)
  rw [execute_of_lt s f hlt g hg _ hwlA,
    execute_of_lt { s with estimated := e2 } q hltB g hgB _ hwlB]
  refine ⟨hcheck, ?_⟩
  by_cases hz : s.goal_idx = 0
  · simp [hz]
  · simp [hz]

/-- C7: every activation performs at most 4 arrival checks and at most 4
sleeps before returning one of the three outcomes (the embedding of
`execute` is a total function, so each activation terminates by
construction). -/
theorem claim_C7_bounded_countdown (s : MissionState)
    (f : ℕ → Option PoseStampedMsg) :
    (execute s f).checks ≤ 4 ∧ (execute s f).sleeps ≤ 4 ∧
      ((execute s f).outcome = Outcome.Completed ∨
        (execute s f).outcome = Outcome.Aborted ∨
        (execute s f).outcome = Outcome.NextGoal) := by
  by_cases hc : s.mission_data.length ≤ s.goal_idx
  · unfold execute
    rw [dif_pos hc]
    exact ⟨Nat.zero_le 4, Nat.zero_le 4, Or.inl rfl⟩
  · have hlt : s.goal_idx < s.mission_data.length := by omega
    obtain ⟨g, hg⟩ : ∃ g, s.mission_data.get ⟨s.goal_idx, hlt⟩ = g := ⟨_, rfl⟩
    obtain ⟨r, hr⟩ :
        ∃ r, waitLoop f 4 { s with activeGoal := some g.pose } = r := ⟨_, rfl⟩
    have hct := waitLoop_counts_le f 4 { s with activeGoal := some g.pose }
    rw [hr] at hct
    rw [execute_of_lt s f hlt g hg r hr]
    refine ⟨?_, ?_, ?_⟩
    · split
      · exact hct.1
      · split
        · exact hct.1
        · exact hct.1
    · split
      · exact hct.2
      · split
        · exact hct.2
        · exact hct.2
    · split
      · exact Or.inr (Or.inr rfl)
      · split
        · exact Or.inr (Or.inl rfl)
        · exact Or.inr (Or.inr rfl)

/-- C8: `setGoal` stores exactly the published (x, y, yaw) triple as the
active-goal snapshot, and the arrival check depends only on the snapshot,
the estimate and the two tolerances — any state agreeing with the
post-`setGoal` state on those four fields (its goal list and index may
differ arbitrarily) produces the same check result, so the check never
re-reads the goal list by index. -/
theorem claim_C8_snapshot (s u : MissionState) (x_m y_m yaw_rad : ℚ)
    (hA : u.activeGoal = (setGoal s x_m y_m yaw_rad).2.activeGoal)
    (hE : u.estimated = (setGoal s x_m y_m yaw_rad).2.estimated)
    (hd : u.distance_to_goal_tolerance_m =
      (setGoal s x_m y_m yaw_rad).2.distance_to_goal_tolerance_m)
    (ha : u.angle_to_goal_tolerance_rad =
      (setGoal s x_m y_m yaw_rad).2.angle_to_goal_tolerance_rad) :
    (setGoal s x_m y_m yaw_rad).2.activeGoal = some ⟨x_m, y_m, yaw_rad⟩ ∧
      (setGoal s x_m y_m yaw_rad).1.x = x_m ∧
      (setGoal s x_m y_m yaw_rad).1.y = y_m ∧
      (setGoal s x_m y_m yaw_rad).1.yaw_rad = yaw_rad ∧
      reachedGoalWithTolerance u =
        reachedGoalWithTolerance (setGoal s x_m y_m yaw_rad).2 := by
  refine ⟨rfl, rfl, rfl, rfl, ?_⟩
  unfold reachedGoalWithTolerance
  rw [hA, hE, hd, ha]

/-- C9: an activation never changes the goal list or either tolerance
threshold: the resulting state differs from the initial one at most in
the goal index, the active-goal snapshot, and the stored estimate (the
estimate is PoseTracker state written by the asynchronous callback, not
by the sequencer itself). -/
theorem claim_C9_frame (s : MissionState) (f : ℕ → Option PoseStampedMsg) :
    (execute s f).state.mission_data = s.mission_data ∧
      (execute s f).state.distance_to_goal_tolerance_m =
        s.distance_to_goal_tolerance_m ∧
      (execute s f).state.angle_to_goal_tolerance_rad =
        s.angle_to_goal_tolerance_rad ∧
      (execute s f).state =
        { s with
          goal_idx := (execute s f).state.goal_idx,
          activeGoal := (execute s f).state.activeGoal,
          estimated := (execute s f).state.estimated } := by
  by_cases hc : s.mission_data.length ≤ s.goal_idx
  · unfold execute
    rw [dif_pos hc]
    exact ⟨rfl, rfl, rfl, rfl⟩
  · have hlt : s.goal_idx < s.mission_data.length := by omega
    obtain ⟨g, hg⟩ : ∃ g, s.mission_data.get ⟨s.goal_idx, hlt⟩ = g := ⟨_, rfl⟩
    obtain ⟨r, hr⟩ :
        ∃ r, waitLoop f 4 { s with activeGoal := some g.pose } = r := ⟨_, rfl⟩
    have hfr : r.state =
        { ({ s with activeGoal := some g.pose } : MissionState) with
          estimated := r.state.estimated } := by
      have := waitLoop_state_frame f 4 { s with activeGoal := some g.pose }
      rw [hr] at this
      exact this
    rw [execute_of_lt s f hlt g hg r hr]
    split
    · rw [hfr]
      exact ⟨rfl, rfl, rfl, rfl⟩
    · split
      · rw [hfr]
        exact ⟨rfl, rfl, rfl, rfl⟩
      · rw [hfr]
        exact ⟨rfl, rfl, rfl, rfl⟩

/-- C10: the arrival check precedes the first sleep, so if the estimate
stored at the moment the goal is published already satisfies both
tolerances for it — in particular an estimate received during an earlier
activation, since only a has-ever-received flag is tracked — `execute`
returns Next Goal after exactly one check and zero sleeps, incrementing
the index. -/
theorem claim_C10_preexisting_estimate (s : MissionState)
    (f : ℕ → Option PoseStampedMsg)
    (h : s.goal_idx < s.mission_data.length)
    (hc : checkAt s f 0 = true) :
    (execute s f).outcome = Outcome.NextGoal ∧
      (execute s f).state.goal_idx = s.goal_idx + 1 ∧
      (execute s f).sleeps = 0 ∧ (execute s f).checks = 1 := by
  obtain ⟨g, hg⟩ : ∃ g, s.mission_data.get ⟨s.goal_idx, h⟩ = g := ⟨_, rfl⟩
  have hrt : reachedGoalWithTolerance { s with activeGoal := some g.pose } =
      true := by
    have hrc := (reached_loopState_eq_checkAt s f h 0).trans hc
    rw [hg] at hrc
    exact hrc
  have hwl : waitLoop f 4 { s with activeGoal := some g.pose } =
      ⟨true, { s with activeGoal := some g.pose }, 0, 1⟩ :=
    waitLoop_immediate f 3 { s with activeGoal := some g.pose } hrt
  rw [execute_of_lt s f h g hg _ hwl]
  simp

/-! ### Witnesses -/

/-- Witness for C1: a fresh two-goal mission; feedback with the first
exact pose of the first goal arrives during the first sleep, so the check at tick 1
succeeds and the activation advances after a single sleep. -/
theorem claim_C1_arrival_advances_witness :
    (demoMission.goal_idx < demoMission.mission_data.length ∧
      ∃ k < 4, checkAt demoMission originFeedback k = true) ∧
      ((execute demoMission originFeedback).outcome = Outcome.NextGoal ∧
        (execute demoMission originFeedback).state.goal_idx =
          demoMission.goal_idx + 1 ∧
        (execute demoMission originFeedback).sleeps < 4) := by
  have hchk : checkAt demoMission originFeedback 1 = true := by
    show poseWithinTolerance ⟨0, 0, 0⟩ ⟨0, 0, 0⟩ (3/10) (7/10) = true
    exact poseWithinTolerance_self ⟨0, 0, 0⟩ (3/10) (7/10) (by norm_num)
  exact ⟨⟨by decide, 1, by decide, hchk⟩,
    claim_C1_arrival_advances demoMission originFeedback (by decide)
      ⟨1, by decide, hchk⟩⟩

/-- Witness for C2: a fresh two-goal mission that never receives
feedback aborts with its index still 0 after the full countdown. -/
theorem claim_C2_first_goal_abort_witness :
    (demoMission.goal_idx = 0 ∧ 0 < demoMission.mission_data.length ∧
      ∀ k < 4, checkAt demoMission noFeedback k = false) ∧
      ((execute demoMission noFeedback).outcome = Outcome.Aborted ∧
        (execute demoMission noFeedback).state.goal_idx = 0 ∧
        (execute demoMission noFeedback).sleeps = 4) :=
  ⟨⟨rfl, by decide, by decide⟩,
    claim_C2_first_goal_abort demoMission noFeedback rfl (by decide)
      (by decide)⟩

/-- Witness for C3: the two-goal mission at index 1 with no feedback
skips to index 2 instead of aborting. -/
theorem claim_C3_mid_mission_skip_witness :
    ((0 < ({ demoMission with goal_idx := 1 } : MissionState).goal_idx ∧
      ({ demoMission with goal_idx := 1 } : MissionState).goal_idx <
        ({ demoMission with goal_idx := 1 } :
          MissionState).mission_data.length ∧
      ∀ k < 4,
        checkAt { demoMission with goal_idx := 1 } noFeedback k = false) ∧
      ((execute { demoMission with goal_idx := 1 } noFeedback).outcome =
          Outcome.NextGoal ∧
        (execute { demoMission with goal_idx := 1 } noFeedback).state.goal_idx
          = ({ demoMission with goal_idx := 1 } : MissionState).goal_idx + 1))
      ∧ ∀ (t : MissionState) (g : ℕ → Option PoseStampedMsg),
        (execute t g).outcome = Outcome.Aborted → t.goal_idx = 0 := by
  have h := claim_C3_mid_mission_skip { demoMission with goal_idx := 1 }
    noFeedback (by decide) (by decide) (by decide)
  exact ⟨⟨⟨by decide, by decide, by decide⟩, h.1⟩, h.2⟩

/-- Witness for C4: the two-goal mission at index 2 returns Completed at
once, resets to index 0 and publishes nothing. -/
theorem claim_C4_completion_witness :
    ({ demoMission with goal_idx := 2 } : MissionState).mission_data.length ≤
        ({ demoMission with goal_idx := 2 } : MissionState).goal_idx ∧
      (((execute { demoMission with goal_idx := 2 } noFeedback).outcome =
          Outcome.Completed ∧
        (execute { demoMission with goal_idx := 2 } noFeedback).state.goal_idx
          = 0 ∧
        (execute { demoMission with goal_idx := 2 } noFeedback).published =
          [] ∧
        (execute { demoMission with goal_idx := 2 } noFeedback).sleeps = 0 ∧
        (execute { demoMission with goal_idx := 2 } noFeedback).checks = 0) ∧
        ∀ (t : MissionState) (g : ℕ → Option PoseStampedMsg),
          t.mission_data = [] →
            (execute t g).outcome = Outcome.Completed) :=
  ⟨by decide,
    claim_C4_completion { demoMission with goal_idx := 2 } noFeedback
      (by decide)⟩

/-- Witness for C5: the index invariant instantiated on the fresh
two-goal mission with no feedback. -/
theorem claim_C5_index_invariant_witness :
    demoMission.goal_idx ≤ demoMission.mission_data.length ∧
      (((execute demoMission noFeedback).state.goal_idx ≤
          (execute demoMission noFeedback).state.mission_data.length ∧
        (execute demoMission noFeedback).state.mission_data.length =
          demoMission.mission_data.length ∧
        (execute demoMission noFeedback).state.goal_idx ≤
          demoMission.goal_idx + 1) ∧
        (demoMission.goal_idx = demoMission.mission_data.length ↔
          (execute demoMission noFeedback).outcome = Outcome.Completed)) :=
  ⟨by decide, claim_C5_index_invariant demoMission noFeedback (by decide)⟩

/-- Witness for C6: no feedback at all versus a stored estimate at
(50, 50, heading 3) — far outside tolerance — with no further feedback:
identical outcome and index, both consuming the full countdown. -/
theorem claim_C6_missing_feedback_witness :
    (demoMission.estimated = none ∧ (∀ k, noFeedback k = none) ∧
      demoMission.goal_idx < demoMission.mission_data.length ∧
      ∀ k < 4,
        checkAt { demoMission with estimated := some ⟨50, 50, 3⟩ }
          noFeedback k = false) ∧
      ((∀ u : MissionState, u.estimated = none →
          reachedGoalWithTolerance u = false) ∧
        (execute demoMission noFeedback).outcome =
          (execute { demoMission with estimated := some ⟨50, 50, 3⟩ }
            noFeedback).outcome ∧
        (execute demoMission noFeedback).state.goal_idx =
          (execute { demoMission with estimated := some ⟨50, 50, 3⟩ }
            noFeedback).state.goal_idx ∧
        (execute demoMission noFeedback).sleeps = 4 ∧
        (execute { demoMission with estimated := some ⟨50, 50, 3⟩ }
          noFeedback).sleeps = 4) := by
  have hno : ∀ k < 4,
      checkAt { demoMission with estimated := some ⟨50, 50, 3⟩ }
        noFeedback k = false := by
    intro k _
    have hest : estimateAtTick
        ({ demoMission with estimated := some ⟨50, 50, 3⟩ } :
          MissionState).estimated noFeedback k = some ⟨50, 50, 3⟩ :=
      estimateAtTick_of_no_feedback _ noFeedback (fun _ => rfl) k
    unfold checkAt
    rw [hest]
    show poseWithinTolerance demoGoalA.pose ⟨50, 50, 3⟩ (3/10) (7/10) = false
    exact poseWithinTolerance_far _ _ _ _
      (by norm_num [demoGoalA, Goal.pose])
  exact ⟨⟨rfl, fun _ => rfl, by decide, hno⟩,
    claim_C6_missing_feedback demoMission (some ⟨50, 50, 3⟩) noFeedback
      noFeedback rfl (fun _ => rfl) (by decide) hno⟩

/-- Witness for C8: a state with a different goal list and index but the
same snapshot, estimate and tolerances yields the same check result as
the state produced by `setGoal demoMission 1 2 3`. -/
theorem claim_C8_snapshot_witness :
    (demoOther.activeGoal = (setGoal demoMission 1 2 3).2.activeGoal ∧
      demoOther.estimated = (setGoal demoMission 1 2 3).2.estimated ∧
      demoOther.distance_to_goal_tolerance_m =
        (setGoal demoMission 1 2 3).2.distance_to_goal_tolerance_m ∧
      demoOther.angle_to_goal_tolerance_rad =
        (setGoal demoMission 1 2 3).2.angle_to_goal_tolerance_rad) ∧
      ((setGoal demoMission 1 2 3).2.activeGoal = some ⟨1, 2, 3⟩ ∧
        (setGoal demoMission 1 2 3).1.x = 1 ∧
        (setGoal demoMission 1 2 3).1.y = 2 ∧
        (setGoal demoMission 1 2 3).1.yaw_rad = 3 ∧
        reachedGoalWithTolerance demoOther =
          reachedGoalWithTolerance (setGoal demoMission 1 2 3).2) :=
  ⟨⟨rfl, rfl, rfl, rfl⟩,
    claim_C8_snapshot demoMission demoOther 1 2 3 rfl rfl rfl rfl⟩

/-- Witness for C10: the estimate stored before the activation already
matches the first goal, so the activation advances with zero sleeps and
one check even though no feedback arrives during it. -/
theorem claim_C10_preexisting_estimate_witness :
    (({ demoMission with estimated := some ⟨0, 0, 0⟩ } :
        MissionState).goal_idx <
      ({ demoMission with estimated := some ⟨0, 0, 0⟩ } :
        MissionState).mission_data.length ∧
      checkAt { demoMission with estimated := some ⟨0, 0, 0⟩ } noFeedback 0 =
        true) ∧
      ((execute { demoMission with estimated := some ⟨0, 0, 0⟩ }
          noFeedback).outcome = Outcome.NextGoal ∧
        (execute { demoMission with estimated := some ⟨0, 0, 0⟩ }
          noFeedback).state.goal_idx =
          ({ demoMission with estimated := some ⟨0, 0, 0⟩ } :
            MissionState).goal_idx + 1 ∧
        (execute { demoMission with estimated := some ⟨0, 0, 0⟩ }
          noFeedback).sleeps = 0 ∧
        (execute { demoMission with estimated := some ⟨0, 0, 0⟩ }
          noFeedback).checks = 1) := by
  have hchk : checkAt { demoMission with estimated := some ⟨0, 0, 0⟩ }
      noFeedback 0 = true := by
    show poseWithinTolerance ⟨0, 0, 0⟩ ⟨0, 0, 0⟩ (3/10) (7/10) = true
    exact poseWithinTolerance_self ⟨0, 0, 0⟩ (3/10) (7/10) (by norm_num)
  exact ⟨⟨by decide, hchk⟩,
    claim_C10_preexisting_estimate
      { demoMission with estimated := some ⟨0, 0, 0⟩ } noFeedback (by decide)
      hchk⟩
